import Mathlib

/-!
Verification of the port-forward lifecycle core of `internal/view/pf_extender.go`.

The Go functions are embedded shallowly.  Effects on the application (registry
mutation, active-flag updates, flash messages, dialogs, launching the
background runner) are recorded as an ordered trace of `Event`s; an event's
`viaUI` flag records whether the effect was scheduled through the application's
serialized `QueueUpdateDraw` primitive (true) or performed directly by the
executing task (false).  External collaborators (the operating system's TCP
listeners, the cluster accessor, the pod fetch, `PortForwarder.Start`) are
parameters holding their outcome.
-/

namespace PF

/-- One declared container port of a pod spec: `(Name, ContainerPort, Protocol)`
as used by `fetchPodPorts` and `showFwdDialog`. -/
structure ContainerPort where
  name : String
  containerPort : Nat
  protocol : String
deriving DecidableEq

/-- A container of a pod spec: its name and declared ports
(`pod.Spec.Containers` entry). -/
structure Container where
  name : String
  ports : List ContainerPort
deriving DecidableEq

/-- The part of a pod specification read by `fetchPodPorts`. -/
structure PodSpec where
  containers : List Container
deriving DecidableEq

/-- Modelled from the spec: the session key is a deterministic composite of the
pod identity (namespace/name path) and the container name (`dao.PortForwardID`,
which is declared outside the shown source). -/
def PortForwardID (path co : String) : String := path ++ "|" ++ co

/-- A live tunnel entry of the Forwarder Registry: pod path, container and the
local:remote port pairs (the `watch.Forwarder` data read by this file). -/
structure Forwarder where
  path : String
  container : String
  ports : List String
deriving DecidableEq

/-- Modelled from the spec: a Forwarder's registry key (`FQN`) is the composite
session key of its pod path and container. -/
def Forwarder.key (f : Forwarder) : String := PortForwardID f.path f.container

/-- Modelled from the spec: `Registry.AllForPod` — every live entry whose pod
identity matches (`factory.Forwarders().GetForwarders(pod)`). -/
def GetForwarders (reg : List Forwarder) (pod : String) : List Forwarder :=
  reg.filter (fun f => f.path == pod)

/-- Modelled from the spec: `Registry.Lookup` by session key
(`factory.ForwarderFor(key)`), returning whether a live entry exists. -/
def ForwarderFor (reg : List Forwarder) (k : String) : Bool :=
  reg.any (fun f => f.key == k)

/-- Modelled from the spec: `client.FQN` joins a container name and a port name
into the `container/portName` prefix of a selection candidate. -/
def clientFQN (co n : String) : String := co ++ "/" ++ n

/-- An observable effect performed by the controller flow or the runner. -/
inductive Action where
  | addForwarder (k : String)
  | deleteForwarder (k : String)
  | setActive (k : String) (b : Bool)
  | flashInfo (msg : String)
  | flashErr (msg : String)
  | dismissPortForwards
  | forwardLoop (k : String)
  | newPortForwarder (path co : String)
  | goRunForward (path co : String)
  | showPortForwards (path : String) (ports : List String)
  | showDeleteDialog (path : String) (bindings : String)
deriving DecidableEq

/-- An effect together with how it is executed: `viaUI = true` when the code
wraps it in the serialized `QueueUpdateDraw` handoff, `false` when the
executing task performs it directly. -/
structure Event where
  viaUI : Bool
  act : Action
deriving DecidableEq

@[simp]
def Action.isAddForwarder : Action → Bool
  | .addForwarder _ => true
  | _ => false

@[simp]
def Action.isDeleteForwarder : Action → Bool
  | .deleteForwarder _ => true
  | _ => false

@[simp]
def Action.isSetActiveTrue : Action → Bool
  | .setActive _ true => true
  | _ => false

@[simp]
def Action.isSetActiveFalse : Action → Bool
  | .setActive _ false => true
  | _ => false

@[simp]
def Action.isFlashInfo : Action → Bool
  | .flashInfo _ => true
  | _ => false

@[simp]
def Action.isFlashErr : Action → Bool
  | .flashErr _ => true
  | _ => false

@[simp]
def Action.isForwardLoop : Action → Bool
  | .forwardLoop _ => true
  | _ => false

@[simp]
def Action.isNewPortForwarder : Action → Bool
  | .newPortForwarder _ _ => true
  | _ => false

@[simp]
def Action.isGoRunForward : Action → Bool
  | .goRunForward _ _ => true
  | _ => false

@[simp]
def Action.isShowPortForwards : Action → Bool
  | .showPortForwards _ _ => true
  | _ => false

@[simp]
def Action.isShowDeleteDialog : Action → Bool
  | .showDeleteDialog _ _ => true
  | _ => false

/-- UI-visible state per the spec's cross-thread rule: the active flag,
registry membership, and flash/status messages. -/
@[simp]
def Action.uiVisible : Action → Bool
  | .addForwarder _ => true
  | .deleteForwarder _ => true
  | .setActive _ _ => true
  | .flashInfo _ => true
  | .flashErr _ => true
  | _ => false

/-- The bind error carried by a failing `net.Listen("tcp", address:port)`. -/
def bindErrMsg (address port : String) : String :=
  "listen tcp " ++ address ++ ":" ++ port ++ ": bind: address already in use"

/-- `tryListenPort` from the source: opens and at once closes a listener on
`address:port`.  The operating system's set of already-bound local endpoints is
modelled as the list `occupied`; the bind error is returned when the endpoint
is taken, `none` when it was free. -/
def tryListenPort (occupied : List (String × String)) (address port : String) :
    Option String :=
  if (address, port) ∈ occupied then some (bindErrMsg address port) else none

/-- One proposed local↔remote mapping (`client.PortTunnel`): local bind
address, local port and remote container port. -/
structure PortTunnel where
  address : String
  localPort : String
  containerPort : String
deriving DecidableEq

/-- The validation loop at the head of `startFwdCB`: `tryListenPort` on each
tunnel in order, returning the first bind error, `none` when all are free. -/
def checkPorts (occupied : List (String × String)) : List PortTunnel → Option String
  | [] => none
  | t :: ts =>
    match tryListenPort occupied t.address t.localPort with
    | some e => some e
    | none => checkPorts occupied ts

/-- `startFwdCB` from the source.  `occupied` models the local endpoints
already bound, `reg` the current Forwarder Registry, `startErr` the outcome of
`pf.Start` (an error, or `none` on success).  The returned trace records, in
program order: flashing the first bind error and aborting; else flashing the
duplicate-session error and aborting when the key is already registered; else
constructing the forwarder (`dao.NewPortForwarder` + `Start`), and either
flashing the start error or launching `runForward` as a goroutine. -/
def startFwdCB (occupied : List (String × String)) (reg : List Forwarder)
    (startErr : Option String) (path co : String) (tt : List PortTunnel) :
    List Event :=
  match checkPorts occupied tt with
  | some e => [⟨false, .flashErr e⟩]
  | none =>
    if ForwarderFor reg (PortForwardID path co) then
      [⟨false, .flashErr "A port-forward is already active on this pod"⟩]
    else
      match startErr with
      | some e => [⟨false, .newPortForwarder path co⟩, ⟨false, .flashErr e⟩]
      | none => [⟨false, .newPortForwarder path co⟩, ⟨false, .goRunForward path co⟩]

/-- `runForward` from the source, the Forwarding Runner goroutine.  `fwdErr`
is the outcome of the blocking `f.ForwardPorts()` call (the forwarding I/O
loop), whose entry is recorded as the `forwardLoop` event.  Program order:
`AddForwarder` (direct), the activation flash and `DismissPortForwards`
(queued via `QueueUpdateDraw`), `SetActive(true)` (direct), then the loop; on
a loop error the error is flashed (direct) and the function returns; on normal
close `DeleteForwarder` and `SetActive(false)` are queued. -/
def runForward (f : Forwarder) (fwdErr : Option String) : List Event :=
  [⟨false, .addForwarder f.key⟩,
   ⟨true, .flashInfo ("PortForward activated " ++ f.path ++ ":" ++ f.ports.headD "")⟩,
   ⟨true, .dismissPortForwards⟩,
   ⟨false, .setActive f.key true⟩,
   ⟨false, .forwardLoop f.key⟩] ++
  match fwdErr with
  | some e => [⟨false, .flashErr e⟩]
  | none => [⟨true, .deleteForwarder f.key⟩, ⟨true, .setActive f.key false⟩]

deriving instance DecidableEq for Except

/-- The possible outcomes of the collaborators consulted by `fetchPodName`:
`dao.AccessorFor` fails; it succeeds but the accessor is not a
`dao.Controller`; or it is a controller and `ctrl.Pod(path)` yields a pod path
or an error. -/
inductive AccessorResult where
  | fetchErr (e : String)
  | notController
  | controller (pod : Except String String)
deriving DecidableEq

/-- `fetchPodName` from the source.  Note the source's `AccessorFor` error
branch reads `return "", nil`: the collaborator's error is dropped and an
empty pod name is returned without error. -/
def fetchPodName (gvr : String) (acc : AccessorResult) : Except String String :=
  match acc with
  | .fetchErr _ => .ok ""
  | .notController => .error ("expecting a controller resource for \"" ++ gvr ++ "\"")
  | .controller r => r

/-- `fetchPodPorts` from the source: the fetched pod spec projected to the
container-name → declared-ports mapping; fetch/decode errors pass through. -/
def fetchPodPorts (res : Except String PodSpec) :
    Except String (List (String × List ContainerPort)) :=
  match res with
  | .error e => .error e
  | .ok pod => .ok (pod.containers.map fun c => (c.name, c.ports))

/-- The candidate string built for one TCP port:
`client.FQN(co, p.Name) + ":" + strconv.Itoa(int(p.ContainerPort))`. -/
def fmtPort (co : String) (p : ContainerPort) : String :=
  clientFQN co p.name ++ ":" ++ toString p.containerPort

/-- The candidate-building loop of `showFwdDialog`: for each container, each
declared port is appended when its protocol is TCP and skipped otherwise. -/
def fwdPortCandidates (mm : List (String × List ContainerPort)) : List String :=
  mm.foldl
    (fun ports cp =>
      cp.2.foldl
        (fun ports p =>
          if p.protocol = "TCP" then ports ++ [fmtPort cp.1 p] else ports)
        ports)
    []

/-- `showFwdDialog` from the source: fetch the pod's ports (errors returned to
the caller), build the TCP candidate list, and show the port-selection dialog
(`ShowPortForwards`). -/
def showFwdDialog (fetchRes : Except String PodSpec) (path : String) :
    Except String (List Event) :=
  match fetchPodPorts fetchRes with
  | .error e => .error e
  | .ok mm => .ok [⟨false, .showPortForwards path (fwdPortCandidates mm)⟩]

/-- The bindings string accumulated by `showDeleteFwdDialog`:
`"\n\r" + Container() + Ports()` per live forwarder, Go rendering a string
slice as `[p1 p2 ...]`. -/
def fwdBindings (fs : List Forwarder) : String :=
  fs.foldl
    (fun s f => s ++ "\n\r" ++ f.container ++ "[" ++ String.intercalate " " f.ports ++ "]")
    ""

/-- `showDeleteFwdDialog` from the source: shows the teardown confirmation
modal for the pod, carrying the live container/port bindings.  (The source
always returns a nil error from this call; errors arise only inside the
confirmation callback.) -/
def showDeleteFwdDialog (pod : String) (fs : List Forwarder) : List Event :=
  [⟨false, .showDeleteDialog pod (fwdBindings fs)⟩]

/-- The tail of `portFwdCmd` once a pod name is in hand: a non-empty
`GetForwarders` result shows the teardown dialog; otherwise `showFwdDialog`
runs and its error, if any, is flashed. -/
def afterResolve (reg : List Forwarder) (fetchRes : Except String PodSpec)
    (pod : String) : List Event :=
  if GetForwarders reg pod ≠ [] then
    showDeleteFwdDialog pod (GetForwarders reg pod)
  else
    match showFwdDialog fetchRes pod with
    | .error e => [⟨false, .flashErr e⟩]
    | .ok evs => evs

/-- `portFwdCmd` from the source, the key handler.  `evt` is the incoming key
event (opaque id); the first component of the result is the returned event
(`some evt` = the event passed through unchanged, `none` = Go's `nil`).  An
empty selection passes the event through with no effect; a `fetchPodName`
error is flashed; otherwise the flow continues with `afterResolve`. -/
def portFwdCmd (evt : Nat) (selected gvr : String) (acc : AccessorResult)
    (reg : List Forwarder) (fetchRes : Except String PodSpec) :
    Option Nat × List Event :=
  if selected = "" then (some evt, [])
  else
    match fetchPodName gvr acc with
    | .error e => (none, [⟨false, .flashErr e⟩])
    | .ok pod => (none, afterResolve reg fetchRes pod)

/-! ## Helper lemmas -/

theorem checkPorts_some_of_mem (occupied : List (String × String))
    (tt : List PortTunnel) (h : ∃ t ∈ tt, (t.address, t.localPort) ∈ occupied) :
    ∃ e, checkPorts occupied tt = some e := by
  induction tt with
  | nil => rcases h with ⟨t, ht, _⟩; cases ht
  | cons t ts ih =>
    rcases htl : tryListenPort occupied t.address t.localPort with _ | e
    · rcases h with ⟨u, hu, hocc⟩
      rcases List.mem_cons.mp hu with rfl | hmem
      · exfalso; simp [tryListenPort, hocc] at htl
      · rcases ih ⟨u, hmem, hocc⟩ with ⟨e, he⟩
        exact ⟨e, by simp [checkPorts, htl, he]⟩
    · exact ⟨e, by simp [checkPorts, htl]⟩

theorem checkPorts_spec (occupied : List (String × String)) (tt : List PortTunnel)
    (e : String) (h : checkPorts occupied tt = some e) :
    ∃ t ∈ tt, (t.address, t.localPort) ∈ occupied ∧
      e = bindErrMsg t.address t.localPort := by
  induction tt with
  | nil => simp [checkPorts] at h
  | cons t ts ih =>
    rcases htl : tryListenPort occupied t.address t.localPort with _ | e0
    · simp only [checkPorts, htl] at h
      rcases ih h with ⟨u, hmem, hocc, he⟩
      exact ⟨u, List.mem_cons_of_mem _ hmem, hocc, he⟩
    · simp only [checkPorts, htl, Option.some.injEq] at h
      unfold tryListenPort at htl
      by_cases hocc : (t.address, t.localPort) ∈ occupied
      · rw [if_pos hocc] at htl
        injection htl with h1
        exact ⟨t, List.mem_cons_self t ts, hocc, by rw [← h, ← h1]⟩
      · rw [if_neg hocc] at htl; cases htl

/-! ## Claims -/

/-- Claim C1 (code bug): the claim says that on every termination cause of
`runForward` — normal close as well as I/O error — the Runner removes the
session from the Registry and clears the active flag exactly once.  Evaluating
the embedded `runForward` on a run whose `ForwardPorts` loop returns an error
shows the early `return` in the source skips the cleanup entirely: the trace
holds no `DeleteForwarder` and no `SetActive(false)`, while the flag had been
set true, so the dead session stays registered and active. -/
theorem runForward_error_skips_cleanup :
    (runForward ⟨"ns/web-0", "app", ["9090:8080"]⟩
        (some "error forwarding ports: lost connection to pod")).countP
      (fun ev => ev.act.isDeleteForwarder) = 0 ∧
    (runForward ⟨"ns/web-0", "app", ["9090:8080"]⟩
        (some "error forwarding ports: lost connection to pod")).countP
      (fun ev => ev.act.isSetActiveFalse) = 0 ∧
    (runForward ⟨"ns/web-0", "app", ["9090:8080"]⟩
        (some "error forwarding ports: lost connection to pod")).countP
      (fun ev => ev.act.isSetActiveTrue) = 1 := by decide

/-- Claim C2 (confirmed): if any proposed local port of the batch is already
bound, `startFwdCB` flashes exactly the bind error of a failing port and stops:
its whole trace is that single flash, so no Registry entry is created, no
forwarder is constructed (`NewPortForwarder`/`Start` never run) and no Runner
is launched. -/
theorem startFwdCB_all_or_nothing (occupied : List (String × String))
    (reg : List Forwarder) (startErr : Option String) (path co : String)
    (tt : List PortTunnel)
    (h : ∃ t ∈ tt, (t.address, t.localPort) ∈ occupied) :
    ∃ t ∈ tt, (t.address, t.localPort) ∈ occupied ∧
      startFwdCB occupied reg startErr path co tt =
        [⟨false, Action.flashErr (bindErrMsg t.address t.localPort)⟩] ∧
      (startFwdCB occupied reg startErr path co tt).countP
        (fun ev => ev.act.isAddForwarder || ev.act.isNewPortForwarder ||
          ev.act.isGoRunForward) = 0 := by
  rcases checkPorts_some_of_mem occupied tt h with ⟨e, he⟩
  rcases checkPorts_spec occupied tt e he with ⟨t, hmem, hocc, rfl⟩
  exact ⟨t, hmem, hocc, by simp [startFwdCB, he], by simp [startFwdCB, he]⟩

/-- Witness for C2 at a concrete occupied port. -/
theorem startFwdCB_all_or_nothing_witness :
    ∃ t ∈ [(⟨"127.0.0.1", "9090", "8080"⟩ : PortTunnel)],
      (t.address, t.localPort) ∈ [("127.0.0.1", "9090")] ∧
      startFwdCB [("127.0.0.1", "9090")] [] none "ns/web-0" "app"
          [⟨"127.0.0.1", "9090", "8080"⟩] =
        [⟨false, Action.flashErr (bindErrMsg t.address t.localPort)⟩] ∧
      (startFwdCB [("127.0.0.1", "9090")] [] none "ns/web-0" "app"
          [⟨"127.0.0.1", "9090", "8080"⟩]).countP
        (fun ev => ev.act.isAddForwarder || ev.act.isNewPortForwarder ||
          ev.act.isGoRunForward) = 0 :=
  startFwdCB_all_or_nothing [("127.0.0.1", "9090")] [] none "ns/web-0" "app"
    [⟨"127.0.0.1", "9090", "8080"⟩]
    ⟨⟨"127.0.0.1", "9090", "8080"⟩, by decide, by decide⟩

/-- Claim C8 (confirmed): when port validation passes but the session key
(pod path plus container) already has a live Registry entry, `startFwdCB`
flashes the duplicate-session error and stops: the trace is that single flash,
so no forwarder is constructed, no Runner launched, and no registry mutation
of any kind is performed (the existing session is untouched). -/
theorem startFwdCB_duplicate_aborts (occupied : List (String × String))
    (reg : List Forwarder) (startErr : Option String) (path co : String)
    (tt : List PortTunnel) (hports : checkPorts occupied tt = none)
    (hdup : ForwarderFor reg (PortForwardID path co) = true) :
    startFwdCB occupied reg startErr path co tt =
      [⟨false, Action.flashErr "A port-forward is already active on this pod"⟩] ∧
    (startFwdCB occupied reg startErr path co tt).countP
      (fun ev => ev.act.isNewPortForwarder || ev.act.isGoRunForward ||
        ev.act.isAddForwarder || ev.act.isDeleteForwarder ||
        ev.act.isSetActiveTrue || ev.act.isSetActiveFalse) = 0 := by
  constructor <;> simp [startFwdCB, hports, hdup]

/-- Witness for C8: an already-registered key for pod `ns/web-0`, container
`app`. -/
theorem startFwdCB_duplicate_aborts_witness :
    startFwdCB [] [⟨"ns/web-0", "app", ["9090:8080"]⟩] none "ns/web-0" "app"
        [⟨"127.0.0.1", "9090", "8080"⟩] =
      [⟨false, Action.flashErr "A port-forward is already active on this pod"⟩] ∧
    (startFwdCB [] [⟨"ns/web-0", "app", ["9090:8080"]⟩] none "ns/web-0" "app"
        [⟨"127.0.0.1", "9090", "8080"⟩]).countP
      (fun ev => ev.act.isNewPortForwarder || ev.act.isGoRunForward ||
        ev.act.isAddForwarder || ev.act.isDeleteForwarder ||
        ev.act.isSetActiveTrue || ev.act.isSetActiveFalse) = 0 :=
  startFwdCB_duplicate_aborts [] [⟨"ns/web-0", "app", ["9090:8080"]⟩] none
    "ns/web-0" "app" [⟨"127.0.0.1", "9090", "8080"⟩] (by decide) (by decide)

/-- Claim C10 (confirmed): with no table row selected (`GetSelectedItem`
returns the empty string), `portFwdCmd` hands the key event back unchanged and
its effect trace is empty: no pod resolution outcome is consulted, no dialog
or flash is produced, and the Registry is not touched. -/
theorem portFwdCmd_empty_selection (evt : Nat) (gvr : String)
    (acc : AccessorResult) (reg : List Forwarder)
    (fetchRes : Except String PodSpec) :
    portFwdCmd evt "" gvr acc reg fetchRes = (some evt, []) := by
  simp [portFwdCmd]

/-- Counterexample for C3: on a fully successful start (no occupied port,
empty registry, `Start` succeeds), the Session Controller's own trace contains
no `AddForwarder` at all and ends with the launch of the Runner, while the
Runner's very first action is the `AddForwarder` registration — so the
registration is not performed by the Controller before launch, and the Runner
does perform it, contrary to the claim. -/
theorem registration_before_launch_cex :
    (startFwdCB [] [] none "ns/web-0" "app" [⟨"127.0.0.1", "9090", "8080"⟩]).countP
      (fun ev => ev.act.isAddForwarder) = 0 ∧
    (startFwdCB [] [] none "ns/web-0" "app"
        [⟨"127.0.0.1", "9090", "8080"⟩]).getLast? =
      some ⟨false, Action.goRunForward "ns/web-0" "app"⟩ ∧
    (runForward ⟨"ns/web-0", "app", ["9090:8080"]⟩ none).head? =
      some ⟨false, Action.addForwarder (PortForwardID "ns/web-0" "app")⟩ := by
  decide

/-- Claim C3 (corrected): in the code the Controller (`startFwdCB`) never
registers the session — no event of its trace is an `AddForwarder` — and the
Forwarding Runner performs the registration itself, as the first action of
`runForward` after being launched. -/
theorem registration_by_runner (occupied : List (String × String))
    (reg : List Forwarder) (startErr : Option String) (path co : String)
    (tt : List PortTunnel) (f : Forwarder) (r : Option String) :
    (∀ ev ∈ startFwdCB occupied reg startErr path co tt,
      ev.act.isAddForwarder = false) ∧
    (runForward f r).head? = some ⟨false, Action.addForwarder f.key⟩ := by
  constructor
  · intro ev hev
    unfold startFwdCB at hev
    rcases hcp : checkPorts occupied tt with _ | e <;> simp only [hcp] at hev
    · rcases hdup : ForwarderFor reg (PortForwardID path co) <;>
        simp only [hdup, if_true, if_false, Bool.false_eq_true] at hev
      · rcases startErr with _ | e0 <;> simp at hev <;>
          rcases hev with rfl | rfl <;> rfl
      · simp at hev; subst hev; rfl
    · simp at hev; subst hev; rfl
  · cases r <;> rfl

/-- Witness for C3's corrected statement at a concrete successful start. -/
theorem registration_by_runner_witness :
    (∀ ev ∈ startFwdCB [] [] none "ns/web-0" "app"
        [⟨"127.0.0.1", "9090", "8080"⟩], ev.act.isAddForwarder = false) ∧
    (runForward ⟨"ns/web-0", "app", ["9090:8080"]⟩ none).head? =
      some ⟨false, Action.addForwarder
        (Forwarder.key ⟨"ns/web-0", "app", ["9090:8080"]⟩)⟩ :=
  registration_by_runner [] [] none "ns/web-0" "app"
    [⟨"127.0.0.1", "9090", "8080"⟩] ⟨"ns/web-0", "app", ["9090:8080"]⟩ none

/-- Counterexample for C5: in a normal run of the embedded `runForward`, the
`SetActive(true)` event occurs strictly before the `forwardLoop` event (the
entry into `f.ForwardPorts()`), so the active flag is set true before the
forwarding I/O loop has begun — the claim says it becomes true only once the
loop has successfully begun, on a readiness signal. -/
theorem active_set_before_loop_cex :
    (runForward ⟨"ns/web-0", "app", ["9090:8080"]⟩ none).any
      (fun ev => ev.act.isSetActiveTrue) = true ∧
    (runForward ⟨"ns/web-0", "app", ["9090:8080"]⟩ none).any
      (fun ev => ev.act.isForwardLoop) = true ∧
    (runForward ⟨"ns/web-0", "app", ["9090:8080"]⟩ none).findIdx
        (fun ev => ev.act.isSetActiveTrue) <
      (runForward ⟨"ns/web-0", "app", ["9090:8080"]⟩ none).findIdx
        (fun ev => ev.act.isForwardLoop) := by decide

/-- Claim C5 (corrected): for every session and every loop outcome, the Runner
sets the active flag true immediately before entering the forwarding I/O loop
(positions 3 and 4 of the trace, after queuing the activation notice and the
modal dismissal), not upon a readiness signal from the running loop; no
earlier event of the trace touches the active flag. -/
theorem setActive_true_immediately_before_loop (f : Forwarder)
    (r : Option String) :
    (runForward f r).get? 3 = some ⟨false, Action.setActive f.key true⟩ ∧
    (runForward f r).get? 4 = some ⟨false, Action.forwardLoop f.key⟩ ∧
    ∀ j, j < 3 → ∀ ev, (runForward f r).get? j = some ev →
      ev.act.isSetActiveTrue = false := by
  refine ⟨by cases r <;> rfl, by cases r <;> rfl, ?_⟩
  intro j hj ev hev
  interval_cases j <;> cases r <;>
    (simp [runForward] at hev; rw [← hev]; rfl)

/-- Witness for C5's corrected statement at a concrete session. -/
theorem setActive_true_immediately_before_loop_witness :
    (runForward ⟨"ns/web-0", "app", ["9090:8080"]⟩ none).get? 3 =
      some ⟨false, Action.setActive
        (Forwarder.key ⟨"ns/web-0", "app", ["9090:8080"]⟩) true⟩ ∧
    (runForward ⟨"ns/web-0", "app", ["9090:8080"]⟩ none).get? 4 =
      some ⟨false, Action.forwardLoop
        (Forwarder.key ⟨"ns/web-0", "app", ["9090:8080"]⟩)⟩ ∧
    ∀ j, j < 3 → ∀ ev,
      (runForward ⟨"ns/web-0", "app", ["9090:8080"]⟩ none).get? j = some ev →
        ev.act.isSetActiveTrue = false :=
  setActive_true_immediately_before_loop ⟨"ns/web-0", "app", ["9090:8080"]⟩ none

/-- Counterexample for C9: the Runner's trace contains an event that mutates
UI-visible state (here the `AddForwarder` registry insertion) and is executed
directly by the background task, not via the serialized `QueueUpdateDraw`
handoff — the claim says every such mutation goes through the handoff. -/
theorem runner_direct_ui_mutation_cex :
    ∃ ev ∈ runForward ⟨"ns/web-0", "app", ["9090:8080"]⟩ (some "broken pipe"),
      ev.act.uiVisible = true ∧ ev.viaUI = false := by decide

/-- Claim C9 (corrected): of the Runner's UI-visible mutations, only the
normal-termination cleanup (`DeleteForwarder`, `SetActive(false)`) and the
activation notice and modal dismissal go through the `QueueUpdateDraw`
handoff; the initial registration (`AddForwarder`), the activation
(`SetActive(true)`) and the termination-error flash are performed directly by
the background task. -/
theorem runner_ui_handoff_mixed (f : Forwarder) (r : Option String) :
    ∀ ev ∈ runForward f r,
      (ev.act.isDeleteForwarder = true → ev.viaUI = true) ∧
      (ev.act.isSetActiveFalse = true → ev.viaUI = true) ∧
      (ev.act.isFlashInfo = true → ev.viaUI = true) ∧
      (ev.act = Action.dismissPortForwards → ev.viaUI = true) ∧
      (ev.act.isAddForwarder = true → ev.viaUI = false) ∧
      (ev.act.isSetActiveTrue = true → ev.viaUI = false) ∧
      (ev.act.isFlashErr = true → ev.viaUI = false) := by
  intro ev hev
  cases r with
  | none =>
    simp [runForward] at hev
    rcases hev with rfl | rfl | rfl | rfl | rfl | rfl | rfl <;> simp
  | some e =>
    simp [runForward] at hev
    rcases hev with rfl | rfl | rfl | rfl | rfl | rfl <;> simp

/-- Witness for C9's corrected statement: the erroring run's first event is
the registration, and instantiating the theorem at that event shows it is
performed directly, not via the handoff. -/
theorem runner_ui_handoff_mixed_witness :
    (runForward ⟨"ns/web-0", "app", ["9090:8080"]⟩ (some "broken pipe")).head? =
      some ⟨false, Action.addForwarder
        (Forwarder.key ⟨"ns/web-0", "app", ["9090:8080"]⟩)⟩ ∧
    Event.viaUI ⟨false, Action.addForwarder
      (Forwarder.key ⟨"ns/web-0", "app", ["9090:8080"]⟩)⟩ = false :=
  ⟨by decide,
    (runner_ui_handoff_mixed ⟨"ns/web-0", "app", ["9090:8080"]⟩
        (some "broken pipe")
        ⟨false, Action.addForwarder
          (Forwarder.key ⟨"ns/web-0", "app", ["9090:8080"]⟩)⟩
        (by decide)).2.2.2.2.1 (by decide)⟩

/-- Claim C4 (code bug): the claim says every collaborator error raised while
resolving the selected resource to a pod is surfaced as one flash and aborts
the flow.  But the source's `fetchPodName` reads `return "", nil` on an
`AccessorFor` error: evaluating the embedding with the accessor lookup failing
shows the error is swallowed — `fetchPodName` reports success with an empty
pod name — and the flow continues all the way to opening the port-selection
dialog for pod `""` with no error flash at all. -/
theorem accessor_error_discarded :
    fetchPodName "apps/v1/deployments" (AccessorResult.fetchErr "access denied") =
      Except.ok "" ∧
    portFwdCmd 42 "fred/blee" "apps/v1/deployments"
        (AccessorResult.fetchErr "access denied") []
        (Except.ok ⟨[⟨"app", [⟨"http", 8080, "TCP"⟩]⟩]⟩) =
      (none, [⟨false, Action.showPortForwards "" ["app/http:8080"]⟩]) := by
  decide

/-- Counterexample for C7: with an empty Registry and a selected resource
whose accessor lookup fails (so nothing can resolve it to a concrete pod), the
claim requires the flow to fail with the `UnsupportedResourceKind` error
before any dialog; instead `portFwdCmd` flashes nothing and opens the
port-selection dialog (for the empty pod name). -/
theorem unsupported_resource_dialog_cex :
    ((portFwdCmd 7 "fred/web" "apps/v1/statefulsets"
        (AccessorResult.fetchErr "no accessor for apps/v1/statefulsets") []
        (Except.ok ⟨[⟨"web", [⟨"tcp", 80, "TCP"⟩]⟩]⟩)).2.any
      (fun ev => ev.act.isShowPortForwards)) = true ∧
    ((portFwdCmd 7 "fred/web" "apps/v1/statefulsets"
        (AccessorResult.fetchErr "no accessor for apps/v1/statefulsets") []
        (Except.ok ⟨[⟨"web", [⟨"tcp", 80, "TCP"⟩]⟩]⟩)).2.any
      (fun ev => ev.act.isFlashErr)) = false := by decide

/-- Claim C7 (corrected): with a non-empty selection, `portFwdCmd` dispatches
as follows.  If the accessor exists but is not a controller, the flow fails
with the expecting-a-controller error before any dialog.  If pod resolution
(`ctrl.Pod`) errors, that error is surfaced and the flow aborts before any
dialog.  If a pod is resolved and the Registry holds live entries for it, the
teardown confirmation dialog (with the current container/port bindings) is
shown and no port-selection dialog opens; with no live entries the
port-selection flow is entered (the candidate dialog on a successful pod
fetch, the fetch error flashed otherwise).  And if the accessor lookup itself
fails, the error is discarded and the flow proceeds exactly as if the resolved
pod name were empty. -/
theorem portFwdCmd_dispatch (evt : Nat) (selected gvr : String)
    (reg : List Forwarder) (fetchRes : Except String PodSpec)
    (h : selected ≠ "") :
    (portFwdCmd evt selected gvr AccessorResult.notController reg fetchRes =
      (none, [⟨false, Action.flashErr
        ("expecting a controller resource for \"" ++ gvr ++ "\"")⟩])) ∧
    (∀ e, portFwdCmd evt selected gvr
        (AccessorResult.controller (Except.error e)) reg fetchRes =
      (none, [⟨false, Action.flashErr e⟩])) ∧
    (∀ pod, GetForwarders reg pod ≠ [] →
      portFwdCmd evt selected gvr
          (AccessorResult.controller (Except.ok pod)) reg fetchRes =
        (none, [⟨false, Action.showDeleteDialog pod
          (fwdBindings (GetForwarders reg pod))⟩])) ∧
    (∀ pod podSpec, GetForwarders reg pod = [] → fetchRes = Except.ok podSpec →
      portFwdCmd evt selected gvr
          (AccessorResult.controller (Except.ok pod)) reg fetchRes =
        (none, [⟨false, Action.showPortForwards pod
          (fwdPortCandidates (podSpec.containers.map fun c => (c.name, c.ports)))⟩])) ∧
    (∀ pod e, GetForwarders reg pod = [] → fetchRes = Except.error e →
      portFwdCmd evt selected gvr
          (AccessorResult.controller (Except.ok pod)) reg fetchRes =
        (none, [⟨false, Action.flashErr e⟩])) ∧
    (∀ e, portFwdCmd evt selected gvr (AccessorResult.fetchErr e) reg fetchRes =
      (none, afterResolve reg fetchRes "")) := by
  refine ⟨?_, ?_, ?_, ?_, ?_, ?_⟩
  · simp [portFwdCmd, fetchPodName, h]
  · intro e; simp [portFwdCmd, fetchPodName, h]
  · intro pod hne
    simp [portFwdCmd, fetchPodName, h, afterResolve, hne, showDeleteFwdDialog]
  · intro pod podSpec hempty hfetch
    subst hfetch
    simp [portFwdCmd, fetchPodName, h, afterResolve, hempty, showFwdDialog,
      fetchPodPorts]
  · intro pod e hempty hfetch
    subst hfetch
    simp [portFwdCmd, fetchPodName, h, afterResolve, hempty, showFwdDialog,
      fetchPodPorts]
  · intro e; simp [portFwdCmd, fetchPodName, h]

/-- Witness for C7's corrected statement at concrete inputs. -/
theorem portFwdCmd_dispatch_witness :
    (portFwdCmd 7 "fred/web" "v1/pods" AccessorResult.notController
        [⟨"ns/web-0", "app", ["9090:8080"]⟩] (Except.ok ⟨[]⟩) =
      (none, [⟨false, Action.flashErr
        ("expecting a controller resource for \"" ++ "v1/pods" ++ "\"")⟩])) ∧
    (∀ e, portFwdCmd 7 "fred/web" "v1/pods"
        (AccessorResult.controller (Except.error e))
        [⟨"ns/web-0", "app", ["9090:8080"]⟩] (Except.ok ⟨[]⟩) =
      (none, [⟨false, Action.flashErr e⟩])) ∧
    (∀ pod, GetForwarders [⟨"ns/web-0", "app", ["9090:8080"]⟩] pod ≠ [] →
      portFwdCmd 7 "fred/web" "v1/pods"
          (AccessorResult.controller (Except.ok pod))
          [⟨"ns/web-0", "app", ["9090:8080"]⟩] (Except.ok ⟨[]⟩) =
        (none, [⟨false, Action.showDeleteDialog pod
          (fwdBindings (GetForwarders [⟨"ns/web-0", "app", ["9090:8080"]⟩] pod))⟩])) ∧
    (∀ pod podSpec,
      GetForwarders [⟨"ns/web-0", "app", ["9090:8080"]⟩] pod = [] →
      (Except.ok ⟨[]⟩ : Except String PodSpec) = Except.ok podSpec →
      portFwdCmd 7 "fred/web" "v1/pods"
          (AccessorResult.controller (Except.ok pod))
          [⟨"ns/web-0", "app", ["9090:8080"]⟩] (Except.ok ⟨[]⟩) =
        (none, [⟨false, Action.showPortForwards pod
          (fwdPortCandidates (podSpec.containers.map fun c => (c.name, c.ports)))⟩])) ∧
    (∀ pod e, GetForwarders [⟨"ns/web-0", "app", ["9090:8080"]⟩] pod = [] →
      (Except.ok ⟨[]⟩ : Except String PodSpec) = Except.error e →
      portFwdCmd 7 "fred/web" "v1/pods"
          (AccessorResult.controller (Except.ok pod))
          [⟨"ns/web-0", "app", ["9090:8080"]⟩] (Except.ok ⟨[]⟩) =
        (none, [⟨false, Action.flashErr e⟩])) ∧
    (∀ e, portFwdCmd 7 "fred/web" "v1/pods" (AccessorResult.fetchErr e)
        [⟨"ns/web-0", "app", ["9090:8080"]⟩] (Except.ok ⟨[]⟩) =
      (none, afterResolve [⟨"ns/web-0", "app", ["9090:8080"]⟩]
        (Except.ok ⟨[]⟩) "")) :=
  portFwdCmd_dispatch 7 "fred/web" "v1/pods"
    [⟨"ns/web-0", "app", ["9090:8080"]⟩] (Except.ok ⟨[]⟩) (by decide)

theorem foldl_tcp_mem (co : String) (pp : List ContainerPort)
    (acc : List String) (s : String) :
    s ∈ pp.foldl
        (fun ports p =>
          if p.protocol = "TCP" then ports ++ [fmtPort co p] else ports) acc ↔
      s ∈ acc ∨ ∃ p ∈ pp, p.protocol = "TCP" ∧ s = fmtPort co p := by
  induction pp generalizing acc with
  | nil => simp
  | cons p ps ih =>
    simp only [List.foldl_cons]
    by_cases hp : p.protocol = "TCP"
    · rw [if_pos hp, ih]
      simp [hp, List.mem_append, or_assoc]
    · rw [if_neg hp, ih]
      simp [hp]

theorem fwdPortCandidates_mem (mm : List (String × List ContainerPort))
    (s : String) :
    s ∈ fwdPortCandidates mm ↔
      ∃ cp ∈ mm, ∃ p ∈ cp.2, p.protocol = "TCP" ∧ s = fmtPort cp.1 p := by
  suffices h : ∀ acc : List String,
      s ∈ mm.foldl
          (fun ports cp =>
            cp.2.foldl
              (fun ports p =>
                if p.protocol = "TCP" then ports ++ [fmtPort cp.1 p] else ports)
              ports) acc ↔
        s ∈ acc ∨ ∃ cp ∈ mm, ∃ p ∈ cp.2, p.protocol = "TCP" ∧ s = fmtPort cp.1 p by
    have := h []
    simpa [fwdPortCandidates] using this
  intro acc
  induction mm generalizing acc with
  | nil => simp
  | cons cp mms ih =>
    simp only [List.foldl_cons]
    rw [ih, foldl_tcp_mem]
    simp [or_assoc]

/-- Claim C6 (confirmed): for any pod spec — containers declaring a mix of TCP
and non-TCP ports — the candidate list that `showFwdDialog` hands to the
port-selection dialog contains exactly the declared TCP entries, each
formatted `container/portName:containerPort`; non-TCP entries are excluded
only in this presentation step (`fetchPodPorts` itself returns every declared
port unfiltered). -/
theorem showFwdDialog_tcp_filter (pod : PodSpec) (path s : String) :
    showFwdDialog (Except.ok pod) path =
      Except.ok [⟨false, Action.showPortForwards path
        (fwdPortCandidates (pod.containers.map fun c => (c.name, c.ports)))⟩] ∧
    fetchPodPorts (Except.ok pod) =
      Except.ok (pod.containers.map fun c => (c.name, c.ports)) ∧
    (s ∈ fwdPortCandidates (pod.containers.map fun c => (c.name, c.ports)) ↔
      ∃ c ∈ pod.containers, ∃ p ∈ c.ports, p.protocol = "TCP" ∧
        s = c.name ++ "/" ++ p.name ++ ":" ++ toString p.containerPort) := by
  refine ⟨rfl, rfl, ?_⟩
  rw [fwdPortCandidates_mem]
  constructor
  · rintro ⟨cp, hcp, p, hp, htcp, rfl⟩
    rcases List.mem_map.mp hcp with ⟨c, hc, rfl⟩
    exact ⟨c, hc, p, hp, htcp, rfl⟩
  · rintro ⟨c, hc, p, hp, htcp, rfl⟩
    exact ⟨(c.name, c.ports), List.mem_map_of_mem _ hc, p, hp, htcp, rfl⟩

/-- Witness for C6 on a pod with one TCP and one UDP port: the TCP entry is a
candidate. -/
theorem showFwdDialog_tcp_filter_witness :
    "app/http:8080" ∈ fwdPortCandidates
      ((PodSpec.mk [⟨"app", [⟨"http", 8080, "TCP"⟩, ⟨"dns", 53, "UDP"⟩]⟩]).containers.map
        fun c => (c.name, c.ports)) :=
  (showFwdDialog_tcp_filter
      ⟨[⟨"app", [⟨"http", 8080, "TCP"⟩, ⟨"dns", 53, "UDP"⟩]⟩]⟩ "ns/web-0"
      "app/http:8080").2.2.mpr
    ⟨⟨"app", [⟨"http", 8080, "TCP"⟩, ⟨"dns", 53, "UDP"⟩]⟩, by decide,
      ⟨"http", 8080, "TCP"⟩, by decide, rfl, rfl⟩

end PF
